import Mathlib

/-!
Verification of the `rev-11-1105` Rust crate (`src/lib.rs`): a transcription
table of LED-driver patterns (`pub enum Pattern`, 98 variants with odd
integer codes in `1..200`) together with three pure conversions,
`as_percentage`, `as_abs_percentage` and `as_duty`.

The Rust code computes with IEEE-754 single-precision (`f32`) values.  Every
nonzero `f32` value reachable in this crate has magnitude between `0.005`
(binary exponent `-8`) and `256` (binary exponent at most `8`), hence is an
exact integer multiple of `2 ^ (-31)` (the unit in the last place of a
single-precision value with exponent `-8`).  We therefore embed each `f32`
value exactly as the integer `value * 2 ^ 31`, and each `f32` operation as
the exact rational operation followed by rounding to the nearest
single-precision value, ties to even (the IEEE-754 default).  On this range
the model below is exact: no subnormal, overflow, infinity or NaN case is
reachable.  `f32ToRat` recovers the rational value an embedded `f32`
denotes.
-/

/-- The fixed-point scale of the embedding: an embedded `f32` value `z : ℤ`
denotes the rational `z / f32Scale`. -/
def f32Scale : ℕ := 2 ^ 31

/-- The exact rational value denoted by an embedded `f32` value. -/
def f32ToRat (z : ℤ) : ℚ := (z : ℚ) / (f32Scale : ℚ)

/-- Floor of the base-2 logarithm for `n < 4`. -/
def log2Step2 (n : ℕ) : ℕ := if 2 ≤ n then 1 else 0

/-- Floor of the base-2 logarithm for `n < 16`. -/
def log2Step4 (n : ℕ) : ℕ := if 4 ≤ n then log2Step2 (n / 4) + 2 else log2Step2 n

/-- Floor of the base-2 logarithm for `n < 2 ^ 8`. -/
def log2Step8 (n : ℕ) : ℕ := if 16 ≤ n then log2Step4 (n / 16) + 4 else log2Step4 n

/-- Floor of the base-2 logarithm for `n < 2 ^ 16`. -/
def log2Step16 (n : ℕ) : ℕ := if 2 ^ 8 ≤ n then log2Step8 (n / 2 ^ 8) + 8 else log2Step8 n

/-- Floor of the base-2 logarithm for `n < 2 ^ 32`. -/
def log2Step32 (n : ℕ) : ℕ := if 2 ^ 16 ≤ n then log2Step16 (n / 2 ^ 16) + 16 else log2Step16 n

/-- Floor of the base-2 logarithm for `n < 2 ^ 64`. -/
def log2Step64 (n : ℕ) : ℕ := if 2 ^ 32 ≤ n then log2Step32 (n / 2 ^ 32) + 32 else log2Step32 n

/-- Floor of the base-2 logarithm for `n < 2 ^ 128`. -/
def log2Step128 (n : ℕ) : ℕ := if 2 ^ 64 ≤ n then log2Step64 (n / 2 ^ 64) + 64 else log2Step64 n

/-- Floor of the base-2 logarithm of a positive natural, by binary chunking
(non-recursive, so that it reduces quickly in the kernel).  Exact for
`n < 2 ^ 256`; every number this development takes a logarithm of is below
`2 ^ 140`. -/
def nlog2 (n : ℕ) : ℕ := if 2 ^ 128 ≤ n then log2Step128 (n / 2 ^ 128) + 128 else log2Step128 n

/-- Round `t / d` (with `d > 0`) to the nearest integer, ties to even. -/
def roundScaled (t d : ℕ) : ℕ :=
  let q := t / d
  let r := t % d
  if 2 * r < d then q
  else if d < 2 * r then q + 1
  else if q % 2 = 0 then q else q + 1

/-- Given the significand shift `s = 23 - e`, where `e` is the binary
exponent of `n / d`, round `n / d` to a 24-bit significand
`roundScaled (n * 2 ^ s) d ≈ (n / d) * 2 ^ (23 - e)` (ties to even) and
rescale the result by `f32Scale`. -/
def roundPosAux (n d s : ℕ) : ℕ :=
  if s ≤ 31 then roundScaled (n * 2 ^ s) d * 2 ^ (31 - s)
  else roundScaled (roundScaled (n * 2 ^ s) d) (2 ^ (s - 31))

/-- Round the positive rational `n / d` (with `n, d > 0`) to the nearest
IEEE-754 single-precision value (24-bit significand), ties to even, and
return it scaled by `f32Scale`.  The binary exponent of `n / d` (the `e`
with `n / d ∈ [2 ^ e, 2 ^ (e + 1))`) is `nlog2 (n * 2 ^ 55 / d) - 55`,
since flooring commutes with the floored base-2 logarithm; the significand
shift passed on is `s = 23 - e = 78 - nlog2 (n * 2 ^ 55 / d)`.  Exact
whenever `n / d` lies in `[2 ^ (-8), 2 ^ 24)`, which covers every nonzero
value reachable in this crate (all are in `[0.005, 254)`); for smaller
magnitudes the result is additionally rounded to the `2 ^ (-31)`
fixed-point grid and above `2 ^ 24` the shift saturates, both unreachable
here. -/
def roundPosF32 (n d : ℕ) : ℕ :=
  roundPosAux n d (78 - nlog2 (n * 2 ^ 55 / d))

/-- Round the rational `n / d` (with `d > 0`) to the nearest IEEE-754
single-precision value, ties to even, scaled by `f32Scale`. -/
def roundF32 (n : ℤ) (d : ℕ) : ℤ :=
  if n = 0 then 0
  else if 0 < n then (roundPosF32 n.toNat d : ℤ)
  else -(roundPosF32 (-n).toNat d : ℤ)

/-- The embedded `f32` value of a natural number (exact for `k < 2 ^ 24`,
which covers every integer this crate converts: pattern codes below 200 and
`u8` duty bounds below 256). -/
def f32OfNat (k : ℕ) : ℤ := (k : ℤ) * (f32Scale : ℤ)

/-- `f32` addition of embedded values: exact sum, then one rounding
(`(a + b) / f32Scale` is the exact sum of the denoted values). -/
def fadd (a b : ℤ) : ℤ := roundF32 (a + b) f32Scale

/-- `f32` subtraction of embedded values: exact difference, then one
rounding. -/
def fsub (a b : ℤ) : ℤ := roundF32 (a - b) f32Scale

/-- `f32` multiplication of embedded values: exact product, then one
rounding (`(a * b) / f32Scale ^ 2` is the exact product of the denoted
values). -/
def fmul (a b : ℤ) : ℤ := roundF32 (a * b) (f32Scale * f32Scale)

/-- `f32` division of embedded values: exact quotient, then one rounding
(the scales cancel, so the exact quotient of the denoted values is
`a / b`).  Only ever called here with positive divisor (`100.0` and
`2.0`). -/
def fdiv (a b : ℤ) : ℤ :=
  if 0 ≤ b then roundF32 a b.toNat else roundF32 (-a) (-b).toNat

/-- The `num` crate cast `NumCast::from::<f32 -> u8>` (`ToPrimitive`'s
`to_u8`): range-check the value against `u8` bounds, then truncate toward
zero; `none` when the value does not fit.  Truncation toward zero of the
denoted value `z / f32Scale` is `Int.tdiv`. -/
def castF32toU8 (z : ℤ) : Option ℕ :=
  if -(f32Scale : ℤ) < z ∧ z < 256 * (f32Scale : ℤ) then
    some (z.tdiv (f32Scale : ℤ)).toNat
  else none

/-- The pattern enumeration of `src/lib.rs` (`pub enum Pattern`), one
constructor per variant, in source order. -/
inductive Pattern
  | Rainbow
  | RainbowParty
  | RainbowOcean
  | RainbowLava
  | RainbowForest
  | RainbowGlitter
  | Confetti
  | RedShot
  | BlueShot
  | WhiteShot
  | SinelonRainbow
  | SinelonParty
  | SinelonOcean
  | SinelonLava
  | SinelonForest
  | BpmRainbow
  | BpmOcean
  | BpmLava
  | BpmForest
  | FireMedium
  | FireLarge
  | TwinklesRainbow
  | TwinklesParty
  | TwinklesOcean
  | TwinklesLava
  | TwinklesForest
  | WavesRainbow
  | WavesParty
  | WavesOcean
  | WavesLava
  | WavesForest
  | LarsonRed
  | LarsonGray
  | ChaseRed
  | ChaseBlue
  | ChaseGray
  | HeartbeatRed
  | HeartbeatBlue
  | HeartbeatWhite
  | HeartbeatGray
  | BreathRed
  | BreathBlue
  | BreathGray
  | StrobeBlue
  | StrobeGold
  | StrobeWhite
  | Color1BlendToBlack
  | Color1Larson
  | Color1Chase
  | Color1HeartbeatSlow
  | Color1HeartbeatMedium
  | Color1HeartbeatFast
  | Color1BreathSlow
  | Color1BreathFast
  | Color1Shot
  | Color1Strobe
  | Color2BlendToBlack
  | Color2Larson
  | Color2Chase
  | Color2HeartbeatSlow
  | Color2HeartbeatMedium
  | Color2HeartbeatFast
  | Color2BreathSlow
  | Color2BreathFast
  | Color2Shot
  | Color2Strobe
  | Sparkle1On2
  | Sparkle2On1
  | Gradient1And2
  | Bpm1And2
  | EndBlend1And2
  | EndBlend
  | Color1And2NoBlend
  | Twinkle1And2
  | Waves1And2
  | Sinelon1And2
  | HotPink
  | DarkRed
  | Red
  | RedOrange
  | Orange
  | Gold
  | Yellow
  | LawnGreen
  | Lime
  | DarkGreen
  | Green
  | BlueGreen
  | Aqua
  | SkyBlue
  | DarkBlue
  | Blue
  | BlueViolet
  | Violet
  | White
  | Gray
  | DarkGray
  | Black
  deriving DecidableEq, Fintype

/-- The discriminant of each `Pattern` variant, i.e. the value of
`*self as u8` in the Rust source: the integer code assigned to the variant
in the `enum Pattern` declaration. -/
def Pattern.rawCode : Pattern → ℕ
  | .Rainbow => 1
  | .RainbowParty => 3
  | .RainbowOcean => 5
  | .RainbowLava => 7
  | .RainbowForest => 9
  | .RainbowGlitter => 11
  | .Confetti => 13
  | .RedShot => 15
  | .BlueShot => 17
  | .WhiteShot => 19
  | .SinelonRainbow => 21
  | .SinelonParty => 23
  | .SinelonOcean => 25
  | .SinelonLava => 27
  | .SinelonForest => 29
  | .BpmRainbow => 31
  | .BpmOcean => 35
  | .BpmLava => 37
  | .BpmForest => 39
  | .FireMedium => 41
  | .FireLarge => 43
  | .TwinklesRainbow => 45
  | .TwinklesParty => 47
  | .TwinklesOcean => 49
  | .TwinklesLava => 51
  | .TwinklesForest => 53
  | .WavesRainbow => 55
  | .WavesParty => 57
  | .WavesOcean => 59
  | .WavesLava => 61
  | .WavesForest => 63
  | .LarsonRed => 65
  | .LarsonGray => 67
  | .ChaseRed => 69
  | .ChaseBlue => 71
  | .ChaseGray => 73
  | .HeartbeatRed => 75
  | .HeartbeatBlue => 77
  | .HeartbeatWhite => 79
  | .HeartbeatGray => 81
  | .BreathRed => 83
  | .BreathBlue => 85
  | .BreathGray => 87
  | .StrobeBlue => 91
  | .StrobeGold => 93
  | .StrobeWhite => 95
  | .Color1BlendToBlack => 97
  | .Color1Larson => 99
  | .Color1Chase => 101
  | .Color1HeartbeatSlow => 103
  | .Color1HeartbeatMedium => 105
  | .Color1HeartbeatFast => 107
  | .Color1BreathSlow => 109
  | .Color1BreathFast => 111
  | .Color1Shot => 113
  | .Color1Strobe => 115
  | .Color2BlendToBlack => 117
  | .Color2Larson => 119
  | .Color2Chase => 121
  | .Color2HeartbeatSlow => 123
  | .Color2HeartbeatMedium => 125
  | .Color2HeartbeatFast => 127
  | .Color2BreathSlow => 129
  | .Color2BreathFast => 131
  | .Color2Shot => 133
  | .Color2Strobe => 135
  | .Sparkle1On2 => 137
  | .Sparkle2On1 => 139
  | .Gradient1And2 => 141
  | .Bpm1And2 => 143
  | .EndBlend1And2 => 145
  | .EndBlend => 147
  | .Color1And2NoBlend => 149
  | .Twinkle1And2 => 151
  | .Waves1And2 => 153
  | .Sinelon1And2 => 155
  | .HotPink => 157
  | .DarkRed => 159
  | .Red => 161
  | .RedOrange => 163
  | .Orange => 165
  | .Gold => 167
  | .Yellow => 169
  | .LawnGreen => 171
  | .Lime => 173
  | .DarkGreen => 175
  | .Green => 177
  | .BlueGreen => 179
  | .Aqua => 181
  | .SkyBlue => 183
  | .DarkBlue => 185
  | .Blue => 187
  | .BlueViolet => 189
  | .Violet => 191
  | .White => 193
  | .Gray => 195
  | .DarkGray => 197
  | .Black => 199

/-- `Pattern::as_percentage`: `((*self as u8) as f32 - 100.0) / 100.0`.
The `u8 -> f32` conversion of the code is exact. -/
def Pattern.as_percentage (p : Pattern) : ℤ :=
  fdiv (fsub (f32OfNat p.rawCode) (f32OfNat 100)) (f32OfNat 100)

/-- `Pattern::as_abs_percentage`: `(self.as_percentage() + 1.0) / 2.0`. -/
def Pattern.as_abs_percentage (p : Pattern) : ℤ :=
  fdiv (fadd p.as_percentage (f32OfNat 1)) (f32OfNat 2)

/-- `Pattern::as_duty` instantiated at `T = u8` (the type the crate's own
test uses): `(max_duty / max_duty) * cast(self.as_abs_percentage() *
max_as_float)`.  Rust `u8` division by zero panics, modelled as `none`;
the panic happens when the identity factor `max_duty / max_duty` is
evaluated, before the `f32 -> u8` cast.  The `u8 -> f32` conversion
`max_as_float` of `max_duty` is exact and its `unwrap` never fails.  The
`f32 -> u8` cast `unwrap` panics (`none`) when the value is out of the
`u8` range.  `u8` division of nonzero `m` by itself is `m / m` on
naturals, and the final `u8` product `(m / m) * v` cannot overflow since
`m / m = 1`. -/
def Pattern.as_duty (p : Pattern) (m : ℕ) : Option ℕ :=
  if m = 0 then none
  else (castF32toU8 (fmul p.as_abs_percentage (f32OfNat m))).map (fun v => m / m * v)

/-- Modelled from the spec: the simplified form of `asDuty` that the spec
says the identity factor reduces to for nonzero `maxDuty`, namely
`cast(asAbsPercentage(pattern) * float(maxDuty))` with no
`(maxDuty / maxDuty)` factor and no division. -/
def Pattern.as_duty_simplified (p : Pattern) (m : ℕ) : Option ℕ :=
  castF32toU8 (fmul p.as_abs_percentage (f32OfNat m))

/-- Bounded-duty check for one `max_duty` value `m`: the `as_duty` pipeline
after the (nonzero) identity factor, with `a` the scaled
`as_abs_percentage` value: the `f32 -> u8` cast of
`as_abs_percentage * max_as_float` succeeds and the result is at most `m`. -/
def dutyOkWith (a : ℤ) (m : ℕ) : Bool :=
  match castF32toU8 (fmul a (f32OfNat m)) with
  | some v => Nat.ble (m / m * v) m
  | none => false

/-- Bounded-duty check for every `max_duty` value in `1..N`. -/
def dutyOkBelow (a : ℤ) : ℕ → Bool
  | 0 => true
  | m + 1 => dutyOkWith a (m + 1) && dutyOkBelow a m

/-- Scaled-integer tolerance bound transfers to the denoted rationals:
tolerance `1 / 1000000` against a reference value `c / 100`. -/
lemma f32ToRat_tol100 (z c : ℤ)
    (h : |1000000 * (100 * z - c * 2 ^ 31)| ≤ 100 * 2 ^ 31) :
    |f32ToRat z - (c : ℚ) / 100| ≤ 1 / 1000000 := by
  have h0 : |1000000 * (100 * (z : ℚ) - c * 2 ^ 31)| ≤ 100 * 2 ^ 31 := by
    exact_mod_cast h
  have key : f32ToRat z - (c : ℚ) / 100 = (100 * (z : ℚ) - c * 2 ^ 31) / (100 * 2 ^ 31) := by
    rw [f32ToRat, f32Scale]
    push_cast
    field_simp
    ring
  rw [key, abs_div, abs_of_pos (by norm_num : (0 : ℚ) < 100 * 2 ^ 31),
    div_le_iff₀ (by norm_num : (0 : ℚ) < 100 * 2 ^ 31)]
  rw [abs_mul, abs_of_pos (by norm_num : (0 : ℚ) < 1000000)] at h0
  generalize |100 * (z : ℚ) - c * 2 ^ 31| = A at h0 ⊢
  linarith

/-- Scaled-integer tolerance bound transfers to the denoted rationals:
tolerance `1 / 1000000` for the `(x + 1) / 2` rescaling relation. -/
lemma f32ToRat_tol_rescale (z1 z2 : ℤ)
    (h : |1000000 * (2 * z1 - z2 - 2 ^ 31)| ≤ 2 * 2 ^ 31) :
    |f32ToRat z1 - (f32ToRat z2 + 1) / 2| ≤ 1 / 1000000 := by
  have h0 : |1000000 * (2 * (z1 : ℚ) - z2 - 2 ^ 31)| ≤ 2 * 2 ^ 31 := by
    exact_mod_cast h
  have key : f32ToRat z1 - (f32ToRat z2 + 1) / 2
      = (2 * (z1 : ℚ) - z2 - 2 ^ 31) / (2 * 2 ^ 31) := by
    rw [f32ToRat, f32ToRat, f32Scale]
    push_cast
    field_simp
    ring
  rw [key, abs_div, abs_of_pos (by norm_num : (0 : ℚ) < 2 * 2 ^ 31),
    div_le_iff₀ (by norm_num : (0 : ℚ) < 2 * 2 ^ 31)]
  rw [abs_mul, abs_of_pos (by norm_num : (0 : ℚ) < 1000000)] at h0
  generalize |2 * (z1 : ℚ) - z2 - 2 ^ 31| = A at h0 ⊢
  linarith

/-- A lower bound on the scaled integer transfers to the denoted value. -/
lemma f32ToRat_neg_one_le (z : ℤ) (h : -(2 ^ 31) ≤ z) : -1 ≤ f32ToRat z := by
  have hq : (-(2 ^ 31) : ℚ) ≤ (z : ℚ) := by exact_mod_cast h
  rw [f32ToRat, f32Scale, le_div_iff₀ (by norm_num : (0 : ℚ) < ((2 ^ 31 : ℕ) : ℚ))]
  push_cast
  linarith

/-- An upper bound on the scaled integer transfers to the denoted value:
bound `99 / 100 + 1 / 1000000 = 990001 / 1000000`. -/
lemma f32ToRat_le_amended (z : ℤ) (h : 1000000 * z ≤ 990001 * 2 ^ 31) :
    f32ToRat z ≤ 99 / 100 + 1 / 1000000 := by
  have hq : 1000000 * (z : ℚ) ≤ 990001 * 2 ^ 31 := by exact_mod_cast h
  rw [f32ToRat, f32Scale, div_le_iff₀ (by norm_num : (0 : ℚ) < ((2 ^ 31 : ℕ) : ℚ))]
  push_cast
  linarith

/-- Nonnegativity of the scaled integer transfers to the denoted value. -/
lemma f32ToRat_nonneg (z : ℤ) (h : 0 ≤ z) : 0 ≤ f32ToRat z := by
  rw [f32ToRat]
  exact div_nonneg (by exact_mod_cast h) (by positivity)

/-- `z ≤ f32Scale` transfers to `f32ToRat z ≤ 1`. -/
lemma f32ToRat_le_one (z : ℤ) (h : z ≤ 2 ^ 31) : f32ToRat z ≤ 1 := by
  rw [f32ToRat, f32Scale, div_le_one (by norm_num : (0 : ℚ) < ((2 ^ 31 : ℕ) : ℚ))]
  push_cast
  exact_mod_cast h

set_option maxRecDepth 100000
set_option maxHeartbeats 16000000

/-- Integer-level tolerance check for `as_percentage` against the affine
reference `(code - 100) / 100`, by evaluation over all 98 variants. -/
lemma aux_pct_tol : ∀ p : Pattern,
    |1000000 * (100 * p.as_percentage - ((p.rawCode : ℤ) - 100) * 2 ^ 31)| ≤ 100 * 2 ^ 31 := by
  decide

/-- Integer-level lower range bound for `as_percentage`. -/
lemma aux_pct_lb : ∀ p : Pattern, -(2 ^ 31) ≤ p.as_percentage := by decide

/-- Integer-level upper range bound for `as_percentage`: at most
`0.99 + 10 ^ (-6)` (the exact `f32` value for code 199 exceeds `0.99`). -/
lemma aux_pct_ub : ∀ p : Pattern, 1000000 * p.as_percentage ≤ 990001 * 2 ^ 31 := by decide

/-- Integer-level tolerance check for `as_abs_percentage` against
`(as_percentage + 1) / 2`, by evaluation over all 98 variants. -/
lemma aux_abs_tol : ∀ p : Pattern,
    |1000000 * (2 * p.as_abs_percentage - p.as_percentage - 2 ^ 31)| ≤ 2 * 2 ^ 31 := by decide

/-- Integer-level range bounds for `as_abs_percentage`. -/
lemma aux_abs_bounds : ∀ p : Pattern,
    0 ≤ p.as_abs_percentage ∧ p.as_abs_percentage ≤ 2 ^ 31 := by decide

/-- The scaled value of `as_percentage` at `Black` (code 199): the `f32`
nearest `0.99` is `16609444 * 2 ^ (-24)`, which is strictly above `0.99`. -/
lemma aux_pct_black : Pattern.as_percentage .Black = 2126008832 := by decide

/-- C1 (corrected): for every `Pattern` variant `p`, `as_percentage p`
agrees with `(rawCode p - 100) / 100` within `10 ^ (-6)`, and lies in the
interval `[-1, 0.99 + 10 ^ (-6)]`.  The original claim's interval
`[-1, 0.99]` fails (see the counterexample at `Black`, whose value is the
`f32` rounding of `0.99`, slightly above `0.99`), so the upper endpoint is
enlarged by the claim's own floating tolerance `10 ^ (-6)`. -/
theorem as_percentage_affine_and_range_amended : ∀ p : Pattern,
    |f32ToRat p.as_percentage - ((p.rawCode : ℚ) - 100) / 100| ≤ 1 / 1000000 ∧
    -1 ≤ f32ToRat p.as_percentage ∧
    f32ToRat p.as_percentage ≤ 99 / 100 + 1 / 1000000 := by
  intro p
  refine ⟨?_, f32ToRat_neg_one_le _ (aux_pct_lb p), f32ToRat_le_amended _ (aux_pct_ub p)⟩
  have h := f32ToRat_tol100 p.as_percentage ((p.rawCode : ℤ) - 100) (aux_pct_tol p)
  rw [show (((p.rawCode : ℤ) - 100 : ℤ) : ℚ) = (p.rawCode : ℚ) - 100 by push_cast; ring] at h
  exact h

/-- C1 counterexample: at `Black` (code 199) the computed `f32` percentage
is `16609444 / 2 ^ 24 = 0.99000000953674316…`, strictly greater than
`0.99`, so the claimed interval `[-1, 0.99]` does not contain it. -/
theorem as_percentage_range_counterexample_black :
    ¬ (|f32ToRat (Pattern.as_percentage .Black) - ((Pattern.rawCode .Black : ℚ) - 100) / 100| ≤ 1 / 1000000 ∧
       -1 ≤ f32ToRat (Pattern.as_percentage .Black) ∧
       f32ToRat (Pattern.as_percentage .Black) ≤ 99 / 100) := by
  intro h
  have hub := h.2.2
  rw [aux_pct_black, f32ToRat, f32Scale] at hub
  norm_num at hub

/-- C2: for every `Pattern` variant `p`, `as_abs_percentage p` agrees with
`(as_percentage p + 1) / 2` within `10 ^ (-6)` (the two differ only by the
rounding of the `f32` addition `as_percentage + 1.0`, well below the
tolerance; the final division by `2.0` is exact). -/
theorem as_abs_percentage_rescale_spec : ∀ p : Pattern,
    |f32ToRat p.as_abs_percentage - (f32ToRat p.as_percentage + 1) / 2| ≤ 1 / 1000000 := by
  intro p
  exact f32ToRat_tol_rescale _ _ (aux_abs_tol p)

/-- C6: for every `Pattern` variant `p`, `as_abs_percentage p` lies in the
closed interval `[0, 1]`. -/
theorem as_abs_percentage_unit_interval : ∀ p : Pattern,
    0 ≤ f32ToRat p.as_abs_percentage ∧ f32ToRat p.as_abs_percentage ≤ 1 := by
  intro p
  exact ⟨f32ToRat_nonneg _ (aux_abs_bounds p).1, f32ToRat_le_one _ (aux_abs_bounds p).2⟩

/-- C5: every `Pattern` code is in `[0, 199]` and odd, and the table
matches the documented transcription values, e.g. `Rainbow = 1`,
`FireMedium = 41`, `Aqua = 181`, `Black = 199`. -/
theorem rawCode_range_odd_table :
    (∀ p : Pattern, p.rawCode ≤ 199 ∧ p.rawCode % 2 = 1) ∧
    Pattern.rawCode .Rainbow = 1 ∧ Pattern.rawCode .FireMedium = 41 ∧
    Pattern.rawCode .Aqua = 181 ∧ Pattern.rawCode .Black = 199 := by
  refine ⟨?_, rfl, rfl, rfl, rfl⟩
  decide

/-- C9: the pattern-to-code mapping is one-to-one: distinct variants have
distinct codes. -/
theorem rawCode_injective : ∀ p q : Pattern, p ≠ q → p.rawCode ≠ q.rawCode := by
  decide

/-- Witness for C9 at a concrete pair of distinct variants. -/
theorem rawCode_injective_witness :
    Pattern.Rainbow ≠ Pattern.RainbowParty ∧
    Pattern.rawCode .Rainbow ≠ Pattern.rawCode .RainbowParty :=
  ⟨by decide, rawCode_injective Pattern.Rainbow Pattern.RainbowParty (by decide)⟩

/-- C8: the reference test values hold exactly in `f32` arithmetic: each
computed value is bit-identical to the `f32` nearest the decimal literal
of the crate's unit tests (`-0.59`, `0.81`, `0.495`, `0.505`), exactly as
`assert_eq!` checks. -/
theorem reference_values_exact_f32 :
    Pattern.as_percentage .FireMedium = roundF32 (-59) 100 ∧
    Pattern.as_percentage .Aqua = roundF32 81 100 ∧
    Pattern.as_abs_percentage .Color1Larson = roundF32 495 1000 ∧
    Pattern.as_abs_percentage .Color1Chase = roundF32 505 1000 := by
  refine ⟨by decide, by decide, by decide, by decide⟩

/-- C4: `as_duty` with `max_duty = 0` evaluates `0 / 0` on the integer
type, which panics in Rust (`none` in the model), for every pattern. -/
theorem as_duty_zero_max_duty_traps : ∀ p : Pattern, p.as_duty 0 = none := by
  intro p
  rfl

/-- C3: `as_duty` is the product of the identity factor
`max_duty / max_duty` with the cast of `as_abs_percentage * max_as_float`;
for nonzero `max_duty` the identity factor is `1`, so `as_duty` agrees
with the spec's simplified form `cast(as_abs_percentage * float(max_duty))`. -/
theorem as_duty_identity_factor_simplification (p : Pattern) (m : ℕ) (h : m ≠ 0) :
    m / m = 1 ∧ p.as_duty m = p.as_duty_simplified m := by
  have h1 : m / m = 1 := Nat.div_self (Nat.pos_of_ne_zero h)
  refine ⟨h1, ?_⟩
  rw [Pattern.as_duty, Pattern.as_duty_simplified, if_neg h]
  cases castF32toU8 (fmul p.as_abs_percentage (f32OfNat m)) with
  | none => rfl
  | some v => simp [h1]

/-- Witness for C3 at `Color1Larson`, `max_duty = 255`. -/
theorem as_duty_identity_factor_simplification_witness :
    (255 : ℕ) ≠ 0 ∧ 255 / 255 = 1 ∧
    Pattern.as_duty .Color1Larson 255 = Pattern.as_duty_simplified .Color1Larson 255 :=
  ⟨by decide, as_duty_identity_factor_simplification Pattern.Color1Larson 255 (by decide)⟩

/-- C7: `as_duty(Color1Larson, 255)` on the `u8` instantiation returns
exactly `126`, and the conversion truncates: the `f32` product
`as_abs_percentage * 255.0` lies strictly between `126` and `127` (it is
the `f32` rounding of `126.224998…`), and the cast keeps its integer part. -/
theorem as_duty_truncation_color1larson_255 :
    Pattern.as_duty .Color1Larson 255 = some 126 ∧
    f32OfNat 126 < fmul (Pattern.as_abs_percentage .Color1Larson) (f32OfNat 255) ∧
    fmul (Pattern.as_abs_percentage .Color1Larson) (f32OfNat 255) < f32OfNat 127 := by
  refine ⟨by decide, by decide, by decide⟩

-- Exhaustive evaluation of the bounded-duty check, one variant at a time-- (98 evaluations of 255 `max_duty` values each).
lemma aux_duty_Rainbow : dutyOkBelow (Pattern.as_abs_percentage .Rainbow) 255 = true := by decide
lemma aux_duty_RainbowParty : dutyOkBelow (Pattern.as_abs_percentage .RainbowParty) 255 = true := by decide
lemma aux_duty_RainbowOcean : dutyOkBelow (Pattern.as_abs_percentage .RainbowOcean) 255 = true := by decide
lemma aux_duty_RainbowLava : dutyOkBelow (Pattern.as_abs_percentage .RainbowLava) 255 = true := by decide
lemma aux_duty_RainbowForest : dutyOkBelow (Pattern.as_abs_percentage .RainbowForest) 255 = true := by decide
lemma aux_duty_RainbowGlitter : dutyOkBelow (Pattern.as_abs_percentage .RainbowGlitter) 255 = true := by decide
lemma aux_duty_Confetti : dutyOkBelow (Pattern.as_abs_percentage .Confetti) 255 = true := by decide
lemma aux_duty_RedShot : dutyOkBelow (Pattern.as_abs_percentage .RedShot) 255 = true := by decide
lemma aux_duty_BlueShot : dutyOkBelow (Pattern.as_abs_percentage .BlueShot) 255 = true := by decide
lemma aux_duty_WhiteShot : dutyOkBelow (Pattern.as_abs_percentage .WhiteShot) 255 = true := by decide
lemma aux_duty_SinelonRainbow : dutyOkBelow (Pattern.as_abs_percentage .SinelonRainbow) 255 = true := by decide
lemma aux_duty_SinelonParty : dutyOkBelow (Pattern.as_abs_percentage .SinelonParty) 255 = true := by decide
lemma aux_duty_SinelonOcean : dutyOkBelow (Pattern.as_abs_percentage .SinelonOcean) 255 = true := by decide
lemma aux_duty_SinelonLava : dutyOkBelow (Pattern.as_abs_percentage .SinelonLava) 255 = true := by decide
lemma aux_duty_SinelonForest : dutyOkBelow (Pattern.as_abs_percentage .SinelonForest) 255 = true := by decide
lemma aux_duty_BpmRainbow : dutyOkBelow (Pattern.as_abs_percentage .BpmRainbow) 255 = true := by decide
lemma aux_duty_BpmOcean : dutyOkBelow (Pattern.as_abs_percentage .BpmOcean) 255 = true := by decide
lemma aux_duty_BpmLava : dutyOkBelow (Pattern.as_abs_percentage .BpmLava) 255 = true := by decide
lemma aux_duty_BpmForest : dutyOkBelow (Pattern.as_abs_percentage .BpmForest) 255 = true := by decide
lemma aux_duty_FireMedium : dutyOkBelow (Pattern.as_abs_percentage .FireMedium) 255 = true := by decide
lemma aux_duty_FireLarge : dutyOkBelow (Pattern.as_abs_percentage .FireLarge) 255 = true := by decide
lemma aux_duty_TwinklesRainbow : dutyOkBelow (Pattern.as_abs_percentage .TwinklesRainbow) 255 = true := by decide
lemma aux_duty_TwinklesParty : dutyOkBelow (Pattern.as_abs_percentage .TwinklesParty) 255 = true := by decide
lemma aux_duty_TwinklesOcean : dutyOkBelow (Pattern.as_abs_percentage .TwinklesOcean) 255 = true := by decide
lemma aux_duty_TwinklesLava : dutyOkBelow (Pattern.as_abs_percentage .TwinklesLava) 255 = true := by decide
lemma aux_duty_TwinklesForest : dutyOkBelow (Pattern.as_abs_percentage .TwinklesForest) 255 = true := by decide
lemma aux_duty_WavesRainbow : dutyOkBelow (Pattern.as_abs_percentage .WavesRainbow) 255 = true := by decide
lemma aux_duty_WavesParty : dutyOkBelow (Pattern.as_abs_percentage .WavesParty) 255 = true := by decide
lemma aux_duty_WavesOcean : dutyOkBelow (Pattern.as_abs_percentage .WavesOcean) 255 = true := by decide
lemma aux_duty_WavesLava : dutyOkBelow (Pattern.as_abs_percentage .WavesLava) 255 = true := by decide
lemma aux_duty_WavesForest : dutyOkBelow (Pattern.as_abs_percentage .WavesForest) 255 = true := by decide
lemma aux_duty_LarsonRed : dutyOkBelow (Pattern.as_abs_percentage .LarsonRed) 255 = true := by decide
lemma aux_duty_LarsonGray : dutyOkBelow (Pattern.as_abs_percentage .LarsonGray) 255 = true := by decide
lemma aux_duty_ChaseRed : dutyOkBelow (Pattern.as_abs_percentage .ChaseRed) 255 = true := by decide
lemma aux_duty_ChaseBlue : dutyOkBelow (Pattern.as_abs_percentage .ChaseBlue) 255 = true := by decide
lemma aux_duty_ChaseGray : dutyOkBelow (Pattern.as_abs_percentage .ChaseGray) 255 = true := by decide
lemma aux_duty_HeartbeatRed : dutyOkBelow (Pattern.as_abs_percentage .HeartbeatRed) 255 = true := by decide
lemma aux_duty_HeartbeatBlue : dutyOkBelow (Pattern.as_abs_percentage .HeartbeatBlue) 255 = true := by decide
lemma aux_duty_HeartbeatWhite : dutyOkBelow (Pattern.as_abs_percentage .HeartbeatWhite) 255 = true := by decide
lemma aux_duty_HeartbeatGray : dutyOkBelow (Pattern.as_abs_percentage .HeartbeatGray) 255 = true := by decide
lemma aux_duty_BreathRed : dutyOkBelow (Pattern.as_abs_percentage .BreathRed) 255 = true := by decide
lemma aux_duty_BreathBlue : dutyOkBelow (Pattern.as_abs_percentage .BreathBlue) 255 = true := by decide
lemma aux_duty_BreathGray : dutyOkBelow (Pattern.as_abs_percentage .BreathGray) 255 = true := by decide
lemma aux_duty_StrobeBlue : dutyOkBelow (Pattern.as_abs_percentage .StrobeBlue) 255 = true := by decide
lemma aux_duty_StrobeGold : dutyOkBelow (Pattern.as_abs_percentage .StrobeGold) 255 = true := by decide
lemma aux_duty_StrobeWhite : dutyOkBelow (Pattern.as_abs_percentage .StrobeWhite) 255 = true := by decide
lemma aux_duty_Color1BlendToBlack : dutyOkBelow (Pattern.as_abs_percentage .Color1BlendToBlack) 255 = true := by decide
lemma aux_duty_Color1Larson : dutyOkBelow (Pattern.as_abs_percentage .Color1Larson) 255 = true := by decide
lemma aux_duty_Color1Chase : dutyOkBelow (Pattern.as_abs_percentage .Color1Chase) 255 = true := by decide
lemma aux_duty_Color1HeartbeatSlow : dutyOkBelow (Pattern.as_abs_percentage .Color1HeartbeatSlow) 255 = true := by decide
lemma aux_duty_Color1HeartbeatMedium : dutyOkBelow (Pattern.as_abs_percentage .Color1HeartbeatMedium) 255 = true := by decide
lemma aux_duty_Color1HeartbeatFast : dutyOkBelow (Pattern.as_abs_percentage .Color1HeartbeatFast) 255 = true := by decide
lemma aux_duty_Color1BreathSlow : dutyOkBelow (Pattern.as_abs_percentage .Color1BreathSlow) 255 = true := by decide
lemma aux_duty_Color1BreathFast : dutyOkBelow (Pattern.as_abs_percentage .Color1BreathFast) 255 = true := by decide
lemma aux_duty_Color1Shot : dutyOkBelow (Pattern.as_abs_percentage .Color1Shot) 255 = true := by decide
lemma aux_duty_Color1Strobe : dutyOkBelow (Pattern.as_abs_percentage .Color1Strobe) 255 = true := by decide
lemma aux_duty_Color2BlendToBlack : dutyOkBelow (Pattern.as_abs_percentage .Color2BlendToBlack) 255 = true := by decide
lemma aux_duty_Color2Larson : dutyOkBelow (Pattern.as_abs_percentage .Color2Larson) 255 = true := by decide
lemma aux_duty_Color2Chase : dutyOkBelow (Pattern.as_abs_percentage .Color2Chase) 255 = true := by decide
lemma aux_duty_Color2HeartbeatSlow : dutyOkBelow (Pattern.as_abs_percentage .Color2HeartbeatSlow) 255 = true := by decide
lemma aux_duty_Color2HeartbeatMedium : dutyOkBelow (Pattern.as_abs_percentage .Color2HeartbeatMedium) 255 = true := by decide
lemma aux_duty_Color2HeartbeatFast : dutyOkBelow (Pattern.as_abs_percentage .Color2HeartbeatFast) 255 = true := by decide
lemma aux_duty_Color2BreathSlow : dutyOkBelow (Pattern.as_abs_percentage .Color2BreathSlow) 255 = true := by decide
lemma aux_duty_Color2BreathFast : dutyOkBelow (Pattern.as_abs_percentage .Color2BreathFast) 255 = true := by decide
lemma aux_duty_Color2Shot : dutyOkBelow (Pattern.as_abs_percentage .Color2Shot) 255 = true := by decide
lemma aux_duty_Color2Strobe : dutyOkBelow (Pattern.as_abs_percentage .Color2Strobe) 255 = true := by decide
lemma aux_duty_Sparkle1On2 : dutyOkBelow (Pattern.as_abs_percentage .Sparkle1On2) 255 = true := by decide
lemma aux_duty_Sparkle2On1 : dutyOkBelow (Pattern.as_abs_percentage .Sparkle2On1) 255 = true := by decide
lemma aux_duty_Gradient1And2 : dutyOkBelow (Pattern.as_abs_percentage .Gradient1And2) 255 = true := by decide
lemma aux_duty_Bpm1And2 : dutyOkBelow (Pattern.as_abs_percentage .Bpm1And2) 255 = true := by decide
lemma aux_duty_EndBlend1And2 : dutyOkBelow (Pattern.as_abs_percentage .EndBlend1And2) 255 = true := by decide
lemma aux_duty_EndBlend : dutyOkBelow (Pattern.as_abs_percentage .EndBlend) 255 = true := by decide
lemma aux_duty_Color1And2NoBlend : dutyOkBelow (Pattern.as_abs_percentage .Color1And2NoBlend) 255 = true := by decide
lemma aux_duty_Twinkle1And2 : dutyOkBelow (Pattern.as_abs_percentage .Twinkle1And2) 255 = true := by decide
lemma aux_duty_Waves1And2 : dutyOkBelow (Pattern.as_abs_percentage .Waves1And2) 255 = true := by decide
lemma aux_duty_Sinelon1And2 : dutyOkBelow (Pattern.as_abs_percentage .Sinelon1And2) 255 = true := by decide
lemma aux_duty_HotPink : dutyOkBelow (Pattern.as_abs_percentage .HotPink) 255 = true := by decide
lemma aux_duty_DarkRed : dutyOkBelow (Pattern.as_abs_percentage .DarkRed) 255 = true := by decide
lemma aux_duty_Red : dutyOkBelow (Pattern.as_abs_percentage .Red) 255 = true := by decide
lemma aux_duty_RedOrange : dutyOkBelow (Pattern.as_abs_percentage .RedOrange) 255 = true := by decide
lemma aux_duty_Orange : dutyOkBelow (Pattern.as_abs_percentage .Orange) 255 = true := by decide
lemma aux_duty_Gold : dutyOkBelow (Pattern.as_abs_percentage .Gold) 255 = true := by decide
lemma aux_duty_Yellow : dutyOkBelow (Pattern.as_abs_percentage .Yellow) 255 = true := by decide
lemma aux_duty_LawnGreen : dutyOkBelow (Pattern.as_abs_percentage .LawnGreen) 255 = true := by decide
lemma aux_duty_Lime : dutyOkBelow (Pattern.as_abs_percentage .Lime) 255 = true := by decide
lemma aux_duty_DarkGreen : dutyOkBelow (Pattern.as_abs_percentage .DarkGreen) 255 = true := by decide
lemma aux_duty_Green : dutyOkBelow (Pattern.as_abs_percentage .Green) 255 = true := by decide
lemma aux_duty_BlueGreen : dutyOkBelow (Pattern.as_abs_percentage .BlueGreen) 255 = true := by decide
lemma aux_duty_Aqua : dutyOkBelow (Pattern.as_abs_percentage .Aqua) 255 = true := by decide
lemma aux_duty_SkyBlue : dutyOkBelow (Pattern.as_abs_percentage .SkyBlue) 255 = true := by decide
lemma aux_duty_DarkBlue : dutyOkBelow (Pattern.as_abs_percentage .DarkBlue) 255 = true := by decide
lemma aux_duty_Blue : dutyOkBelow (Pattern.as_abs_percentage .Blue) 255 = true := by decide
lemma aux_duty_BlueViolet : dutyOkBelow (Pattern.as_abs_percentage .BlueViolet) 255 = true := by decide
lemma aux_duty_Violet : dutyOkBelow (Pattern.as_abs_percentage .Violet) 255 = true := by decide
lemma aux_duty_White : dutyOkBelow (Pattern.as_abs_percentage .White) 255 = true := by decide
lemma aux_duty_Gray : dutyOkBelow (Pattern.as_abs_percentage .Gray) 255 = true := by decide
lemma aux_duty_DarkGray : dutyOkBelow (Pattern.as_abs_percentage .DarkGray) 255 = true := by decide
lemma aux_duty_Black : dutyOkBelow (Pattern.as_abs_percentage .Black) 255 = true := by decide

/-- The bounded-duty check holds for every variant and every `max_duty` in `1..255`. -/
theorem aux_dutyOkAll : ∀ p : Pattern, dutyOkBelow p.as_abs_percentage 255 = true
  | .Rainbow => aux_duty_Rainbow
  | .RainbowParty => aux_duty_RainbowParty
  | .RainbowOcean => aux_duty_RainbowOcean
  | .RainbowLava => aux_duty_RainbowLava
  | .RainbowForest => aux_duty_RainbowForest
  | .RainbowGlitter => aux_duty_RainbowGlitter
  | .Confetti => aux_duty_Confetti
  | .RedShot => aux_duty_RedShot
  | .BlueShot => aux_duty_BlueShot
  | .WhiteShot => aux_duty_WhiteShot
  | .SinelonRainbow => aux_duty_SinelonRainbow
  | .SinelonParty => aux_duty_SinelonParty
  | .SinelonOcean => aux_duty_SinelonOcean
  | .SinelonLava => aux_duty_SinelonLava
  | .SinelonForest => aux_duty_SinelonForest
  | .BpmRainbow => aux_duty_BpmRainbow
  | .BpmOcean => aux_duty_BpmOcean
  | .BpmLava => aux_duty_BpmLava
  | .BpmForest => aux_duty_BpmForest
  | .FireMedium => aux_duty_FireMedium
  | .FireLarge => aux_duty_FireLarge
  | .TwinklesRainbow => aux_duty_TwinklesRainbow
  | .TwinklesParty => aux_duty_TwinklesParty
  | .TwinklesOcean => aux_duty_TwinklesOcean
  | .TwinklesLava => aux_duty_TwinklesLava
  | .TwinklesForest => aux_duty_TwinklesForest
  | .WavesRainbow => aux_duty_WavesRainbow
  | .WavesParty => aux_duty_WavesParty
  | .WavesOcean => aux_duty_WavesOcean
  | .WavesLava => aux_duty_WavesLava
  | .WavesForest => aux_duty_WavesForest
  | .LarsonRed => aux_duty_LarsonRed
  | .LarsonGray => aux_duty_LarsonGray
  | .ChaseRed => aux_duty_ChaseRed
  | .ChaseBlue => aux_duty_ChaseBlue
  | .ChaseGray => aux_duty_ChaseGray
  | .HeartbeatRed => aux_duty_HeartbeatRed
  | .HeartbeatBlue => aux_duty_HeartbeatBlue
  | .HeartbeatWhite => aux_duty_HeartbeatWhite
  | .HeartbeatGray => aux_duty_HeartbeatGray
  | .BreathRed => aux_duty_BreathRed
  | .BreathBlue => aux_duty_BreathBlue
  | .BreathGray => aux_duty_BreathGray
  | .StrobeBlue => aux_duty_StrobeBlue
  | .StrobeGold => aux_duty_StrobeGold
  | .StrobeWhite => aux_duty_StrobeWhite
  | .Color1BlendToBlack => aux_duty_Color1BlendToBlack
  | .Color1Larson => aux_duty_Color1Larson
  | .Color1Chase => aux_duty_Color1Chase
  | .Color1HeartbeatSlow => aux_duty_Color1HeartbeatSlow
  | .Color1HeartbeatMedium => aux_duty_Color1HeartbeatMedium
  | .Color1HeartbeatFast => aux_duty_Color1HeartbeatFast
  | .Color1BreathSlow => aux_duty_Color1BreathSlow
  | .Color1BreathFast => aux_duty_Color1BreathFast
  | .Color1Shot => aux_duty_Color1Shot
  | .Color1Strobe => aux_duty_Color1Strobe
  | .Color2BlendToBlack => aux_duty_Color2BlendToBlack
  | .Color2Larson => aux_duty_Color2Larson
  | .Color2Chase => aux_duty_Color2Chase
  | .Color2HeartbeatSlow => aux_duty_Color2HeartbeatSlow
  | .Color2HeartbeatMedium => aux_duty_Color2HeartbeatMedium
  | .Color2HeartbeatFast => aux_duty_Color2HeartbeatFast
  | .Color2BreathSlow => aux_duty_Color2BreathSlow
  | .Color2BreathFast => aux_duty_Color2BreathFast
  | .Color2Shot => aux_duty_Color2Shot
  | .Color2Strobe => aux_duty_Color2Strobe
  | .Sparkle1On2 => aux_duty_Sparkle1On2
  | .Sparkle2On1 => aux_duty_Sparkle2On1
  | .Gradient1And2 => aux_duty_Gradient1And2
  | .Bpm1And2 => aux_duty_Bpm1And2
  | .EndBlend1And2 => aux_duty_EndBlend1And2
  | .EndBlend => aux_duty_EndBlend
  | .Color1And2NoBlend => aux_duty_Color1And2NoBlend
  | .Twinkle1And2 => aux_duty_Twinkle1And2
  | .Waves1And2 => aux_duty_Waves1And2
  | .Sinelon1And2 => aux_duty_Sinelon1And2
  | .HotPink => aux_duty_HotPink
  | .DarkRed => aux_duty_DarkRed
  | .Red => aux_duty_Red
  | .RedOrange => aux_duty_RedOrange
  | .Orange => aux_duty_Orange
  | .Gold => aux_duty_Gold
  | .Yellow => aux_duty_Yellow
  | .LawnGreen => aux_duty_LawnGreen
  | .Lime => aux_duty_Lime
  | .DarkGreen => aux_duty_DarkGreen
  | .Green => aux_duty_Green
  | .BlueGreen => aux_duty_BlueGreen
  | .Aqua => aux_duty_Aqua
  | .SkyBlue => aux_duty_SkyBlue
  | .DarkBlue => aux_duty_DarkBlue
  | .Blue => aux_duty_Blue
  | .BlueViolet => aux_duty_BlueViolet
  | .Violet => aux_duty_Violet
  | .White => aux_duty_White
  | .Gray => aux_duty_Gray
  | .DarkGray => aux_duty_DarkGray
  | .Black => aux_duty_Black

/-- From the check for all `max_duty` up to `N`, extract the check at one
`max_duty`. -/
lemma aux_dutyOkBelow_le (a : ℤ) :
    ∀ N, dutyOkBelow a N = true → ∀ m, m ≠ 0 → m ≤ N → dutyOkWith a m = true := by
  intro N
  induction N with
  | zero => intro _ m hm hle; omega
  | succ N ih =>
      intro h m hm hle
      rw [dutyOkBelow] at h
      obtain ⟨h1, h2⟩ := Bool.and_eq_true_iff.mp h
      rcases Nat.eq_or_lt_of_le hle with heq | hlt
      · rw [heq]; exact h1
      · exact ih h2 m hm (Nat.lt_succ_iff.mp hlt)

/-- Unfold the bounded-duty check into the shape of `as_duty`. -/
lemma as_duty_of_dutyOk (p : Pattern) (m : ℕ) (hle : m ≤ 255) (h0 : m ≠ 0)
    (hall : dutyOkBelow p.as_abs_percentage 255 = true) :
    ∃ v, p.as_duty m = some v ∧ v ≤ m := by
  have hw := aux_dutyOkBelow_le p.as_abs_percentage 255 hall m h0 hle
  rw [dutyOkWith] at hw
  rw [Pattern.as_duty, if_neg h0]
  cases hc : castF32toU8 (fmul p.as_abs_percentage (f32OfNat m)) with
  | none => rw [hc] at hw; exact absurd hw (by simp)
  | some v =>
      rw [hc] at hw
      refine ⟨m / m * v, by simp, ?_⟩
      simpa using Nat.le_of_ble_eq_true (by simpa using hw)

/-- C10: for every pattern and every nonzero `u8` value of `max_duty`,
`as_duty` returns normally (the `u8` self-division is defined and the
`f32 -> u8` cast `unwrap` succeeds) with a value at most `max_duty`
(and at least `0`, the return type being unsigned). -/
theorem as_duty_total_bounded_u8 (p : Pattern) (m : ℕ) (hle : m ≤ 255) (h0 : m ≠ 0) :
    ∃ v, p.as_duty m = some v ∧ v ≤ m :=
  as_duty_of_dutyOk p m hle h0 (aux_dutyOkAll p)

/-- Witness for C10 at `Color1Larson`, `max_duty = 255`. -/
theorem as_duty_total_bounded_u8_witness :
    ((255 : ℕ) ≤ 255 ∧ (255 : ℕ) ≠ 0) ∧
    ∃ v, Pattern.as_duty .Color1Larson 255 = some v ∧ v ≤ 255 :=
  ⟨⟨by decide, by decide⟩, as_duty_total_bounded_u8 Pattern.Color1Larson 255 (by decide) (by decide)⟩
